import Mathlib

/-!
Verification of the preacher-portal data-aggregation layer
(`firebase-data.js` and its duplicated copy in the repository).

The JavaScript module is embedded shallowly:

* optional record fields become `Option` values, and the JS truthiness tests
  the code performs on them (`if (report.prasadamServed)`, `user.temple || ...`)
  are modelled by `natT` / `strT`, under which `0`, `""` and an absent field
  are falsy while every array and object is truthy;
* the module-global `dataCache` becomes an explicit `Cache` value threaded
  through the fetch operations, and `Date.now()` becomes an explicit `now`
  argument;
* calls into the external Firestore store become an explicit
  `Except String α` argument: `Except.ok` is a successful response (already
  ordered by the store, since ordering is delegated to the query),
  `Except.error` is a thrown/rejected store call.  The fetchers wrap every
  store interaction in `try/catch`, so their Lean models are total functions —
  the caught-error branch is the `Except.error` case;
* a JS object used as a dictionary (`regionData`, `categoryData`, the
  category/user directories) is modelled as an insertion-ordered structure:
  directories as association lists `List (String × _)`, and the two
  accumulator objects as an insertion-ordered key list plus a total valuation
  defaulting to zero on keys not yet inserted (mirroring the
  `if (!obj[k]) obj[k] = 0` initialisation in the source).
-/

namespace PreacherPortal

/-- JS truthiness of an optional numeric field: an absent field and `0` are
falsy, every other number is truthy. -/
def natT : Option Nat → Bool
  | some n => n != 0
  | none => false

/-- JS truthiness of an optional string field: an absent field and `""` are
falsy, every other string is truthy. -/
def strT : Option String → Bool
  | some s => s != ""
  | none => false

/-- One entry of a report's `contacts` array. -/
structure Contact where
  isNewContact : Option Bool := none
  isNew : Option Bool := none
  contactType : Option String := none
deriving Repr, DecidableEq

/-- The two shapes of `booksDistributed`: a bare count, or a size-bucketed
object `{big, medium, small}` with optional keys. -/
inductive Books where
  | num (n : Nat)
  | sizes (big medium small : Option Nat)
deriving Repr, DecidableEq

/-- An activity report document (store id merged in as `id`).  `createdAt` is
the store timestamp, represented by its `YYYY-MM-DD` rendering, the only way
the embedded code observes it. -/
structure Report where
  id : String := ""
  createdBy : Option String := none
  categoryId : Option String := none
  categoryName : Option String := none
  booksDistributed : Option Books := none
  contacts : Option (List Contact) := none
  newContacts : Option Nat := none
  prasadamServed : Option Nat := none
  date : Option String := none
  createdAt : Option String := none
deriving Repr, DecidableEq

/-- A preaching-category document. -/
structure Category where
  categoryName : Option String := none
  name : Option String := none
deriving Repr, DecidableEq

/-- A user document. -/
structure User where
  displayName : Option String := none
  name : Option String := none
  email : Option String := none
  temple : Option String := none
deriving Repr, DecidableEq

/-- The categories directory: the id-keyed JS object returned by
`fetchPreachingCategories`, as an insertion-ordered association list. -/
abbrev CategoryDir := List (String × Category)

/-- The users directory returned by `fetchUsers`. -/
abbrev UserDir := List (String × User)

/-- JS dictionary access `d[k]` where the key itself may be `undefined`:
an absent key never matches an entry. -/
def dirGet (d : List (String × α)) (k : Option String) : Option α :=
  match k with
  | some s => d.lookup s
  | none => none

/-- Book count contributed by one report.  `calculatePreachingImpact`,
`getRecentReports` and `getChartData` all inline this same logic: an object
shape contributes `big + medium + small` with missing keys as 0; a bare
number contributes itself (the source's truthiness guard skips a bare `0`,
which likewise contributes 0); an absent field contributes 0. -/
def reportBooks (r : Report) : Nat :=
  match r.booksDistributed with
  | some (Books.sizes big medium small) => big.getD 0 + medium.getD 0 + small.getD 0
  | some (Books.num n) => n
  | none => 0

/-- The filter used on `contacts` in `calculatePreachingImpact`:
`contact.isNewContact === true || contact.isNew === true ||
(contact.contactType && contact.contactType === 'new')`. -/
def isMarkedNew (c : Contact) : Bool :=
  c.isNewContact == some true || c.isNew == some true ||
    (strT c.contactType && c.contactType == some "new")

/-- New-contact count contributed by one report (the `totalNewContacts`
accumulation of `calculatePreachingImpact`): with a `contacts` array, the
number of marked-new entries, or the full array length when that count is
zero; otherwise a truthy `newContacts` field (an absent or `0` value
contributes 0). -/
def reportNewContacts (r : Report) : Nat :=
  match r.contacts with
  | some contacts =>
      let newOnes := contacts.filter isMarkedNew
      if newOnes.length > 0 then newOnes.length else contacts.length
  | none =>
      if natT r.newContacts then r.newContacts.getD 0 else 0

/-- Prasadam count contributed by one report (the `totalPrasadamServed`
accumulation): a truthy `prasadamServed` field, else `⌊contacts.length · 1.5⌋`
when `contacts` is present, else 0. -/
def reportPrasadam (r : Report) : Nat :=
  if natT r.prasadamServed then r.prasadamServed.getD 0
  else
    match r.contacts with
    | some contacts => contacts.length * 3 / 2
    | none => 0

/-- Append a key if it is not already present — the behaviour of both
`Set.add` (the `templesWithReports` set) and first-assignment to a key of a
JS object, whose keys keep insertion order. -/
def pushNew (l : List String) (x : String) : List String :=
  if x ∈ l then l else l ++ [x]

/-- The temple added to `templesWithReports` by one report, if any:
the source adds `users[report.createdBy].temple` when `createdBy` is truthy,
the user exists in the directory, and its `temple` is truthy. -/
def reportAuthorTemple (users : UserDir) (r : Report) : Option String :=
  match r.createdBy with
  | some cb =>
      if cb != "" then
        match users.lookup cb with
        | some user => if strT user.temple then some (user.temple.getD "") else none
        | none => none
      else none
  | none => none

/-- One step of the `templesWithReports` accumulation. -/
def templesStep (users : UserDir) (acc : List String) (r : Report) : List String :=
  match reportAuthorTemple users r with
  | some t => pushNew acc t
  | none => acc

/-- The record returned by `calculatePreachingImpact`. -/
structure Impact where
  totalReports : Nat
  totalBooksDistributed : Nat
  totalPrasadamServed : Nat
  livesTouched : Nat
  activePreachers : Nat
  citiesCovered : Nat
deriving Repr, DecidableEq

/-- `calculatePreachingImpact` (firebase-data.js lines 106-185), with the two
fetches made explicit arguments.  The single `forEach` loop accumulates four
independent totals and a temple set; they are written as independent folds.
The returned `totalPrasadamServed` applies the `|| totalNewContacts * 2`
fallback. -/
def calculatePreachingImpact (reports : List Report) (users : UserDir) : Impact :=
  let totalBooksDistributed := (reports.map reportBooks).sum
  let totalNewContacts := (reports.map reportNewContacts).sum
  let totalPrasadamServed := (reports.map reportPrasadam).sum
  let templesWithReports := reports.foldl (templesStep users) []
  { totalReports := reports.length
    totalBooksDistributed := totalBooksDistributed
    totalPrasadamServed :=
      if totalPrasadamServed != 0 then totalPrasadamServed else totalNewContacts * 2
    livesTouched := totalNewContacts
    activePreachers := users.length
    citiesCovered := templesWithReports.length }


/-- The activity-name resolution of `getRecentReports` (lines 222-232):
`category.categoryName`, then `report.categoryName`, then `category.name`,
else the literal `"Unknown Activity"`. -/
def rowActivityName (category : Category) (r : Report) : String :=
  if strT category.categoryName then category.categoryName.getD ""
  else if strT r.categoryName then r.categoryName.getD ""
  else if strT category.name then category.name.getD ""
  else "Unknown Activity"

/-- `user.displayName || user.name || user.email || 'Unknown'`. -/
def resolveDisplayName (user : User) : String :=
  if strT user.displayName then user.displayName.getD ""
  else if strT user.name then user.name.getD ""
  else if strT user.email then user.email.getD ""
  else "Unknown"

/-- One enriched row of the recent-reports table. -/
structure EnrichedReport where
  id : String
  date : String
  preacher : String
  temple : String
  activity : String
  books : Nat
  prasadam : Nat
  contacts : Nat
  createdAt : Option String
deriving Repr, DecidableEq

/-- The per-report enrichment performed inside `getRecentReports`
(lines 198-245): joins the report to its category and author via the
`|| {}`-defaulted lookups and attaches the computed counts. -/
def enrichReport (categories : CategoryDir) (users : UserDir) (r : Report) :
    EnrichedReport :=
  let category := (dirGet categories r.categoryId).getD {}
  let user := (dirGet users r.createdBy).getD {}
  { id := r.id
    date :=
      if strT r.date then r.date.getD ""
      else
        match r.createdAt with
        | some ts => ts
        | none => "N/A"
    preacher := resolveDisplayName user
    temple := if strT user.temple then user.temple.getD "" else "N/A"
    activity := rowActivityName category r
    books := reportBooks r
    prasadam := reportPrasadam r
    contacts := (r.contacts.getD []).length
    createdAt := r.createdAt }

/-- `getRecentReports(limitCount)`: the first `limitCount` reports in store
order, each enriched. -/
def getRecentReports (reports : List Report) (categories : CategoryDir)
    (users : UserDir) (limitCount : Nat) : List EnrichedReport :=
  (reports.take limitCount).map (enrichReport categories users)

/-- Per-group accumulator of `getChartData`'s `regionData` object. -/
structure RegionTotals where
  books : Nat
  prasadam : Nat
  events : Nat
deriving Repr, DecidableEq

/-- The zero record a fresh `regionData[temple]` is initialised to. -/
def RegionTotals.zero : RegionTotals := ⟨0, 0, 0⟩

/-- The JS object `regionData`, modelled as its insertion-ordered key list
plus a total valuation that is `RegionTotals.zero` on keys not yet inserted
(mirroring `if (!regionData[temple]) regionData[temple] = {books:0,...}`). -/
structure RegionMap where
  keys : List String
  val : String → RegionTotals

/-- The grouping key of `getChartData`:
`(users[report.createdBy] || {}).temple || 'Unknown'`. -/
def reportTemple (users : UserDir) (r : Report) : String :=
  let user := (dirGet users r.createdBy).getD {}
  if strT user.temple then user.temple.getD "" else "Unknown"

/-- One iteration of `getChartData`'s `reports.forEach` loop: ensure the
temple's group exists, then add this report's book count, prasadam count and
one event to it. -/
def chartStep (users : UserDir) (m : RegionMap) (r : Report) : RegionMap :=
  let temple := reportTemple users r
  { keys := pushNew m.keys temple
    val := fun t =>
      if t = temple then
        { books := (m.val t).books + reportBooks r
          prasadam := (m.val t).prasadam + reportPrasadam r
          events := (m.val t).events + 1 }
      else m.val t }

/-- The value returned by `getChartData`. -/
structure ChartData where
  regions : List String
  booksData : List Nat
  prasadamData : List Nat
  eventsData : List Nat
deriving Repr, DecidableEq

/-- `getChartData` (lines 255-318): group the reports by author temple, then
take `Object.keys(regionData).slice(0, 5)` — the first five keys in insertion
order — and read the three series off the groups. -/
def getChartData (reports : List Report) (users : UserDir) : ChartData :=
  let regionData := reports.foldl (chartStep users) ⟨[], fun _ => RegionTotals.zero⟩
  let regions := regionData.keys.take 5
  { regions := regions
    booksData := regions.map fun region => (regionData.val region).books
    prasadamData := regions.map fun region => (regionData.val region).prasadam
    eventsData := regions.map fun region => (regionData.val region).events }

/-- The name under which `getPieChartData` initialises a known category:
`category.categoryName || category.name || 'Unknown Category'`. -/
def initCategoryName (category : Category) : String :=
  if strT category.categoryName then category.categoryName.getD ""
  else if strT category.name then category.name.getD ""
  else "Unknown Category"

/-- The name under which `getPieChartData` counts one report, given the
looked-up (possibly `{}`) category: `category.categoryName`, then
`category.name`, then `report.categoryName`, else `'Other'` (lines 340-350 —
note the order differs from the row enrichment). -/
def pieCategoryNameOf (category : Category) (r : Report) : String :=
  if strT category.categoryName then category.categoryName.getD ""
  else if strT category.name then category.name.getD ""
  else if strT r.categoryName then r.categoryName.getD ""
  else "Other"

/-- The counting name of one report in `getPieChartData`, after the
`categories[report.categoryId] || {}` lookup. -/
def pieCategoryName (categories : CategoryDir) (r : Report) : String :=
  pieCategoryNameOf ((dirGet categories r.categoryId).getD {}) r

/-- The JS object `categoryData` of `getPieChartData`: insertion-ordered keys
plus a total count valuation defaulting to 0. -/
structure CountMap where
  keys : List String
  val : String → Nat

/-- One slice of the pie-chart data. -/
structure PieSlice where
  name : String
  value : Nat
deriving Repr, DecidableEq

/-- Stable descending insertion of a slice: it goes before the first strictly
smaller value, after equal ones — the effect of the source's stable
`sort((a, b) => b.value - a.value)`. -/
def insertDesc (x : PieSlice) : List PieSlice → List PieSlice
  | [] => [x]
  | y :: ys => if x.value ≥ y.value then x :: y :: ys else y :: insertDesc x ys

/-- Stable sort of the pie slices in descending value order. -/
def sortByValueDesc : List PieSlice → List PieSlice
  | [] => []
  | x :: xs => insertDesc x (sortByValueDesc xs)

/-- One step of the initialisation loop of `getPieChartData` (lines 330-335):
ensure the key exists; a fresh key's count is (re)set to 0, which the
default-0 valuation already gives. -/
def pieInitStep (m : CountMap) (entry : String × Category) : CountMap :=
  { m with keys := pushNew m.keys (initCategoryName entry.2) }

/-- One step of the counting loop of `getPieChartData` (lines 338-356):
resolve the report's counting name, ensure its key exists, and add 1. -/
def pieCountStep (categories : CategoryDir) (m : CountMap) (r : Report) :
    CountMap :=
  let categoryName := pieCategoryName categories r
  { keys := pushNew m.keys categoryName
    val := fun t => if t = categoryName then m.val t + 1 else m.val t }

/-- `getPieChartData` (lines 321-387): initialise every known category's
resolved name at count 0, count one per report under `pieCategoryName`, read
the entries in key-insertion order, drop zero counts, sort descending by
value, and if nothing survives the filter return every known category at 0. -/
def getPieChartData (reports : List Report) (categories : CategoryDir) :
    List PieSlice :=
  let counted : CountMap :=
    reports.foldl (pieCountStep categories)
      (categories.foldl pieInitStep ⟨[], fun _ => 0⟩)
  let pieData :=
    sortByValueDesc
      ((counted.keys.map fun name => PieSlice.mk name (counted.val name)).filter
        fun slice => slice.value > 0)
  if pieData.length = 0 then
    categories.map fun entry => PieSlice.mk (initCategoryName entry.2) 0
  else pieData




/-- The module-global `dataCache`, made an explicit value. -/
structure Cache where
  activityReports : Option (List Report)
  preachingCategories : Option CategoryDir
  users : Option UserDir
  lastFetch : Option Nat
deriving Repr, DecidableEq

/-- The cache's initial state, and the state `clearCache` resets it to. -/
def emptyCache : Cache :=
  { activityReports := none, preachingCategories := none, users := none,
    lastFetch := none }

/-- `clearCache()` (lines 417-424): every collection and the timestamp reset
together. -/
def clearCache : Cache := emptyCache

/-- Five minutes, in milliseconds. -/
def CACHE_DURATION : Nat := 5 * 60 * 1000

/-- `isCacheValid()` (lines 27-29): `dataCache.lastFetch` must be truthy and
less than `CACHE_DURATION` old.  `now` is the explicit `Date.now()`. -/
def isCacheValid (c : Cache) (now : Nat) : Bool :=
  natT c.lastFetch && decide (now - c.lastFetch.getD 0 < CACHE_DURATION)

/-- Result of one fetch operation: the value handed to the caller, the cache
state it leaves behind, and whether the external store was queried at all. -/
structure FetchResult (α : Type) where
  result : α
  cache : Cache
  queriedStore : Bool
deriving Repr, DecidableEq

/-- `fetchActivityReports` (lines 32-57).  `store` is the outcome of the
`getDocs` call on the `orderBy('createdAt', 'desc')` query (the ordering is
delegated to the store, so `Except.ok rs` carries the already-ordered rows);
the surrounding `try/catch` makes the operation total: a thrown store error
is logged and an empty list returned, the cache untouched.  On success the
reports are cached and `lastFetch` is stamped. -/
def fetchActivityReports (c : Cache) (now : Nat)
    (store : Except String (List Report)) : FetchResult (List Report) :=
  if isCacheValid c now && c.activityReports.isSome then
    ⟨c.activityReports.getD [], c, false⟩
  else
    match store with
    | Except.ok reports =>
        ⟨reports, { c with activityReports := some reports, lastFetch := some now }, true⟩
    | Except.error _ => ⟨[], c, true⟩

/-- `fetchPreachingCategories` (lines 60-80): same shape, but the result is an
id-keyed mapping and `lastFetch` is NOT stamped. -/
def fetchPreachingCategories (c : Cache) (now : Nat)
    (store : Except String CategoryDir) : FetchResult CategoryDir :=
  if isCacheValid c now && c.preachingCategories.isSome then
    ⟨c.preachingCategories.getD [], c, false⟩
  else
    match store with
    | Except.ok categories =>
        ⟨categories, { c with preachingCategories := some categories }, true⟩
    | Except.error _ => ⟨[], c, true⟩

/-- `fetchUsers` (lines 83-103): like the categories fetch, no `lastFetch`
stamp. -/
def fetchUsers (c : Cache) (now : Nat)
    (store : Except String UserDir) : FetchResult UserDir :=
  if isCacheValid c now && c.users.isSome then
    ⟨c.users.getD [], c, false⟩
  else
    match store with
    | Except.ok users => ⟨users, { c with users := some users }, true⟩
    | Except.error _ => ⟨[], c, true⟩

/-- The `limit(50)` of the live reports query. -/
def LISTEN_LIMIT : Nat := 50

/-- One push delivered to `listenToActivityReports`'s snapshot callback
(lines 395-409).  The subscribed query is
`orderBy('createdAt', 'desc'), limit(50)`, so the store delivers the first 50
documents of its descending-ordered collection; the handler rebuilds the
report list, replaces `dataCache.activityReports`, stamps
`dataCache.lastFetch`, and invokes the callback with the list.  The returned
pair is (callback payload, new cache). -/
def listenPush (storeReports : List Report) (now : Nat) (c : Cache) :
    List Report × Cache :=
  let reports := storeReports.take LISTEN_LIMIT
  (reports, { c with activityReports := some reports, lastFetch := some now })

/-- An observable step of a live-feed error fallback: a one-shot manual fetch
being issued, or the registered callback being invoked with a payload. -/
inductive FeedEvent (α : Type) where
  | manualFetch
  | callbackCall (payload : List α)
deriving Repr, DecidableEq

/-- A resource document, as far as the listener fallback observes one. -/
structure Resource where
  id : String := ""
  uploadedAt : Option String := none
deriving Repr, DecidableEq

/-- An error observer registered with the store's `onSnapshot`: given the
outcome of the manual fallback fetch it performs, the trace of observable
events it produces.  `none` models an `onSnapshot` call that passes no error
observer. -/
def ErrObserver (α : Type) : Type := Option (Except String (List α) → List (FeedEvent α))

/-- What the subscription does when it fails at subscription level: run the
registered error observer, or nothing at all when none was registered. -/
def deliverError (obs : ErrObserver α) (fetched : Except String (List α)) :
    List (FeedEvent α) :=
  match obs with
  | some handler => handler fetched
  | none => []

/-- The error observer `listenToResources` registers (part_000 lines
646-654): one manual `fetchResources` whose resolved value is delivered to
the callback; a rejected fallback is caught and the callback receives `[]`.
Both branches are caught, so the handler is total — no rejection escapes. -/
def resourcesOnError (fetched : Except String (List Resource)) :
    List (FeedEvent Resource) :=
  match fetched with
  | Except.ok resources => [FeedEvent.manualFetch, FeedEvent.callbackCall resources]
  | Except.error _ => [FeedEvent.manualFetch, FeedEvent.callbackCall []]

/-- `listenToResources` passes `resourcesOnError` as `onSnapshot`'s second
observer. -/
def resourcesListenerErrObserver : ErrObserver Resource := some resourcesOnError

/-- `listenToActivityReports` (lines 390-414) calls
`onSnapshot(q, querySnapshot => ...)` with NO second observer: a
subscription-level error runs no code of this module. -/
def reportsListenerErrObserver : ErrObserver Report := none

/-- Number of manual fallback fetches in a trace. -/
def countFetches (tr : List (FeedEvent α)) : Nat :=
  tr.countP fun e =>
    match e with
    | FeedEvent.manualFetch => true
    | FeedEvent.callbackCall _ => false

/-- The payloads of the callback invocations in a trace, in order. -/
def callbackPayloads (tr : List (FeedEvent α)) : List (List α) :=
  tr.filterMap fun e =>
    match e with
    | FeedEvent.callbackCall payload => some payload
    | FeedEvent.manualFetch => none

/-! ### Spec-side definitions

The spec (§4.3) names per-field normalizers that the source inlines at each
call site.  They are written here from the spec's own words, to be compared
with the inlined code, with "present" read as the JS-truthy presence every
guard in this module uses (an absent field and a bare `0` are not present). -/

/-- The spec's `normalizePrasadamCount(report)`: use `prasadamServed` if
present, otherwise estimate as `⌊contacts.length · 1.5⌋` when `contacts` is
present, otherwise 0. -/
def normalizePrasadamCount (r : Report) : Nat :=
  if natT r.prasadamServed then r.prasadamServed.getD 0
  else if r.contacts.isSome then (r.contacts.getD []).length * 3 / 2
  else 0

/-- The spec's `normalizeNewContactCount(report)`: with a `contacts` sequence,
the number of entries marked `isNewContact === true`, `isNew === true` or
`contactType === 'new'`, falling back to the full length when that count is
zero; without one, the `newContacts` field when set, else 0. -/
def normalizeNewContactCount (r : Report) : Nat :=
  match r.contacts with
  | some contacts =>
      let marked := contacts.filter fun c =>
        c.isNewContact == some true || c.isNew == some true ||
          c.contactType == some "new"
      if marked.length = 0 then contacts.length else marked.length
  | none =>
      match r.newContacts with
      | some n => n
      | none => 0

/-! ### Helper lemmas -/

theorem normalizePrasadam_eq_code (r : Report) :
    normalizePrasadamCount r = reportPrasadam r := by
  unfold normalizePrasadamCount reportPrasadam
  cases hc : r.contacts <;> simp [hc]

theorem strT_none : strT none = false := rfl

theorem strT_and_beq_new (o : Option String) :
    (strT o && o == some "new") = (o == some "new") := by
  cases o with
  | none => rfl
  | some s =>
      by_cases hs : s = "new"
      · subst hs; rfl
      · have h1 : (some s == some "new") = false := by
          simp only [beq_eq_false_iff_ne, ne_eq, Option.some.injEq]
          exact hs
        simp [h1]

theorem isMarkedNew_eq (c : Contact) :
    isMarkedNew c =
      (c.isNewContact == some true || c.isNew == some true ||
        c.contactType == some "new") := by
  unfold isMarkedNew
  rw [strT_and_beq_new]

theorem normalizeNewContacts_eq_code (r : Report) :
    reportNewContacts r = normalizeNewContactCount r := by
  unfold reportNewContacts normalizeNewContactCount
  cases hc : r.contacts with
  | some contacts =>
      have hf : contacts.filter isMarkedNew =
          contacts.filter fun c =>
            c.isNewContact == some true || c.isNew == some true ||
              c.contactType == some "new" := by
        apply List.filter_congr
        intro c _
        exact isMarkedNew_eq c
      simp only [hf]
      by_cases hz :
          (contacts.filter fun c =>
            c.isNewContact == some true || c.isNew == some true ||
              c.contactType == some "new").length = 0 <;>
        simp [hz, Nat.pos_iff_ne_zero]
  | none =>
      cases hn : r.newContacts with
      | none => rfl
      | some n =>
          by_cases h0 : n = 0 <;> simp [natT, h0]

/-! ### Claim theorems -/

/-- C1: over any report list, `calculatePreachingImpact`'s
`totalPrasadamServed` is the sum of the spec's per-report
`normalizePrasadamCount` (`prasadamServed` if present, else
`⌊contacts.length · 1.5⌋` when `contacts` is present, else 0) — except that a
zero sum is replaced by `livesTouched * 2`. -/
theorem C1_total_prasadam (reports : List Report) (users : UserDir) :
    (calculatePreachingImpact reports users).totalPrasadamServed =
      (if (reports.map normalizePrasadamCount).sum = 0 then
        (calculatePreachingImpact reports users).livesTouched * 2
      else (reports.map normalizePrasadamCount).sum) := by
  have hm : reports.map normalizePrasadamCount = reports.map reportPrasadam :=
    List.map_congr_left fun r _ => normalizePrasadam_eq_code r
  rw [hm]
  simp only [calculatePreachingImpact]
  by_cases h : (reports.map reportPrasadam).sum = 0 <;> simp [h]

/-- C3: the per-report new-contact count contributing to `livesTouched` is
exactly the spec's `normalizeNewContactCount`: the number of marked-new
contact entries, falling back to the full `contacts` length when none are
marked, else a set `newContacts` field, else 0; in particular
`[{isNew:true},{isNew:false}]` contributes 1 and `[{},{}]` contributes 2. -/
theorem C3_new_contact_count :
    (∀ r : Report, reportNewContacts r = normalizeNewContactCount r) ∧
    (∀ (reports : List Report) (users : UserDir),
        (calculatePreachingImpact reports users).livesTouched =
          (reports.map normalizeNewContactCount).sum) ∧
    reportNewContacts
      { contacts := some [{ isNew := some true }, { isNew := some false }] } = 1 ∧
    reportNewContacts { contacts := some [{}, {}] } = 2 := by
  refine ⟨normalizeNewContacts_eq_code, ?_, by decide, by decide⟩
  intro reports users
  have hm : reports.map reportNewContacts = reports.map normalizeNewContactCount :=
    List.map_congr_left fun r _ => normalizeNewContacts_eq_code r
  simp only [calculatePreachingImpact, hm]

/-- The single resolution order claim C2 asserts for BOTH consumers:
`category.categoryName`, then `report.categoryName` (direct override on the
report), then `category.name`, else the consumer's fallback literal. -/
def claimedCategoryResolution (category : Category) (r : Report)
    (fallback : String) : String :=
  if strT category.categoryName then category.categoryName.getD ""
  else if strT r.categoryName then r.categoryName.getD ""
  else if strT category.name then category.name.getD ""
  else fallback

/-- A category that has only a `name`, referenced by a report that carries its
own `categoryName` override. -/
def cexCategoriesC2 : CategoryDir := [("c1", { name := some "Street Chanting" })]

/-- The report for the C2 counterexample. -/
def cexReportC2 : Report :=
  { categoryId := some "c1", categoryName := some "Override" }

/-- C2 counterexample: in the category distribution the code resolves
`category.name` BEFORE the report-level `categoryName` override, so on a
category `{name: "Street Chanting"}` and a report with
`categoryName: "Override"` it yields `"Street Chanting"`, not the
`"Override"` the claimed order produces. -/
theorem C2_counterexample :
    pieCategoryName cexCategoriesC2 cexReportC2 ≠
      claimedCategoryResolution
        ((dirGet cexCategoriesC2 cexReportC2.categoryId).getD {}) cexReportC2
        "Other" := by
  decide

/-- The distribution's resolution order exactly as the amended claim states
it: `category.categoryName`, then `category.name`, then `report.categoryName`
(the report-level override demoted to third), else the literal `"Other"`. -/
def amendedDistributionResolution (category : Category) (r : Report) : String :=
  if strT category.categoryName then category.categoryName.getD ""
  else if strT category.name then category.name.getD ""
  else if strT r.categoryName then r.categoryName.getD ""
  else "Other"

/-- C2 amended: row enrichment resolves `category.categoryName`, then
`report.categoryName`, then `category.name`, else `"Unknown Activity"`; the
category distribution instead resolves `category.categoryName`, then
`category.name`, then `report.categoryName`, else `"Other"` (the report-level
override demoted below `category.name`) — stated both as a full functional
equality and level by level.  Enriching a report whose `categoryId` is a
known category with a truthy `categoryName` reproduces that name exactly, and
an unknown `categoryId` with no report-level name yields
`"Unknown Activity"`. -/
theorem C2_amended :
    (∀ (category : Category) (r : Report),
        rowActivityName category r =
          claimedCategoryResolution category r "Unknown Activity") ∧
    (∀ (category : Category) (r : Report),
        pieCategoryNameOf category r = amendedDistributionResolution category r) ∧
    (∀ (category : Category) (r : Report),
        strT category.categoryName = true →
        pieCategoryNameOf category r = category.categoryName.getD "") ∧
    (∀ (category : Category) (r : Report),
        strT category.categoryName = false → strT category.name = true →
        pieCategoryNameOf category r = category.name.getD "") ∧
    (∀ (category : Category) (r : Report),
        strT category.categoryName = false → strT category.name = false →
        strT r.categoryName = true →
        pieCategoryNameOf category r = r.categoryName.getD "") ∧
    (∀ (category : Category) (r : Report),
        strT category.categoryName = false → strT category.name = false →
        strT r.categoryName = false →
        pieCategoryNameOf category r = "Other") ∧
    (∀ (categories : CategoryDir) (users : UserDir) (r : Report)
        (category : Category),
        dirGet categories r.categoryId = some category →
        strT category.categoryName = true →
        (enrichReport categories users r).activity = category.categoryName.getD "") ∧
    (∀ (categories : CategoryDir) (users : UserDir) (r : Report),
        dirGet categories r.categoryId = none → strT r.categoryName = false →
        (enrichReport categories users r).activity = "Unknown Activity") := by
  refine ⟨fun _ _ => rfl, fun _ _ => rfl, ?_, ?_, ?_, ?_, ?_, ?_⟩
  · intro category r h1
    simp [pieCategoryNameOf, h1]
  · intro category r h1 h2
    simp [pieCategoryNameOf, h1, h2]
  · intro category r h1 h2 h3
    simp [pieCategoryNameOf, h1, h2, h3]
  · intro category r h1 h2 h3
    simp [pieCategoryNameOf, h1, h2, h3]
  · intro categories users r category hlook hname
    simp [enrichReport, rowActivityName, hlook, hname]
  · intro categories users r hlook hname
    simp [enrichReport, rowActivityName, hlook, hname, strT_none]

/-- Witness for C2's amended theorem at concrete inputs: one input per
resolution level of the distribution order (`categoryName`, `name`,
report override, `"Other"` fallback), plus the two enrichment round-trips
(known `categoryName` reproduced exactly; unknown id with no report name
falling back to `"Unknown Activity"`). -/
theorem C2_amended_witness :
    pieCategoryNameOf { categoryName := some "A" } {} = "A" ∧
    pieCategoryNameOf { name := some "B" } {} = "B" ∧
    pieCategoryNameOf {} { categoryName := some "C" } = "C" ∧
    pieCategoryNameOf {} {} = "Other" ∧
    (enrichReport [("idA", { categoryName := some "Book Distribution" })] []
        { categoryId := some "idA" }).activity = "Book Distribution" ∧
    (enrichReport [] [] { categoryId := some "missing" }).activity =
      "Unknown Activity" :=
  ⟨C2_amended.2.2.1 { categoryName := some "A" } {} (by decide),
   C2_amended.2.2.2.1 { name := some "B" } {} (by decide) (by decide),
   C2_amended.2.2.2.2.1 {} { categoryName := some "C" }
     (by decide) (by decide) (by decide),
   C2_amended.2.2.2.2.2.1 {} {} (by decide) (by decide) (by decide),
   C2_amended.2.2.2.2.2.2.1 [("idA", { categoryName := some "Book Distribution" })]
     [] { categoryId := some "idA" } { categoryName := some "Book Distribution" }
     (by decide) (by decide),
   C2_amended.2.2.2.2.2.2.2 [] [] { categoryId := some "missing" }
     (by decide) (by decide)⟩

theorem chartFold_keys (users : UserDir) (reports : List Report) (m : RegionMap) :
    (reports.foldl (chartStep users) m).keys =
      reports.foldl (fun acc r => pushNew acc (reportTemple users r)) m.keys := by
  induction reports generalizing m with
  | nil => rfl
  | cons r rs ih =>
      simp only [List.foldl_cons]
      rw [ih]
      rfl

theorem chartFold_val (users : UserDir) (reports : List Report) (m : RegionMap)
    (t : String) :
    (reports.foldl (chartStep users) m).val t =
      { books := (m.val t).books +
          ((reports.filter fun r => reportTemple users r == t).map reportBooks).sum
        prasadam := (m.val t).prasadam +
          ((reports.filter fun r => reportTemple users r == t).map reportPrasadam).sum
        events := (m.val t).events +
          (reports.filter fun r => reportTemple users r == t).length } := by
  induction reports generalizing m with
  | nil => simp
  | cons r rs ih =>
      simp only [List.foldl_cons]
      rw [ih]
      by_cases h : reportTemple users r = t
      · subst h
        simp [chartStep, List.filter_cons]
        omega
      · simp [chartStep, List.filter_cons, h, Ne.symm h]

/-- Seven users in seven distinct temples, for the over-cap demonstration. -/
def demoUsersC5 : UserDir :=
  [("u1", { temple := some "T1" }), ("u2", { temple := some "T2" }),
   ("u3", { temple := some "T3" }), ("u4", { temple := some "T4" }),
   ("u5", { temple := some "T5" }), ("u6", { temple := some "T6" }),
   ("u7", { temple := some "T7" })]

/-- Reports from all seven temples; temple T7 has by far the highest volume
(three events, 100 books) yet is encountered last. -/
def demoReportsC5 : List Report :=
  [{ createdBy := some "u1" }, { createdBy := some "u2" },
   { createdBy := some "u3" }, { createdBy := some "u4" },
   { createdBy := some "u5" }, { createdBy := some "u6" },
   { createdBy := some "u7", booksDistributed := some (Books.num 100) },
   { createdBy := some "u7" }, { createdBy := some "u7" }]

/-- C5: the regional series groups reports by the author's temple
(`"Unknown"` when the author or its temple is absent), accumulates per-group
books, prasadam and one event per report, and emits exactly the first 5
distinct temple keys in iteration order; the three series read off those
groups.  Even with 7 distinct temples where the last one has the highest
volume, the output is the first five encountered, not the top five. -/
theorem C5_regional_series :
    (∀ (reports : List Report) (users : UserDir),
        (getChartData reports users).regions =
          (reports.foldl (fun acc r => pushNew acc (reportTemple users r)) []).take 5 ∧
        (getChartData reports users).regions.length ≤ 5 ∧
        (getChartData reports users).booksData =
          (getChartData reports users).regions.map (fun t =>
            ((reports.filter fun r => reportTemple users r == t).map reportBooks).sum) ∧
        (getChartData reports users).prasadamData =
          (getChartData reports users).regions.map (fun t =>
            ((reports.filter fun r => reportTemple users r == t).map reportPrasadam).sum) ∧
        (getChartData reports users).eventsData =
          (getChartData reports users).regions.map (fun t =>
            (reports.filter fun r => reportTemple users r == t).length)) ∧
    (getChartData demoReportsC5 demoUsersC5).regions =
      ["T1", "T2", "T3", "T4", "T5"] ∧
    "T7" ∉ (getChartData demoReportsC5 demoUsersC5).regions := by
  refine ⟨?_, by decide, by decide⟩
  intro reports users
  have hval : ∀ t,
      (reports.foldl (chartStep users) ⟨[], fun _ => RegionTotals.zero⟩).val t =
        { books := ((reports.filter fun r => reportTemple users r == t).map reportBooks).sum
          prasadam := ((reports.filter fun r => reportTemple users r == t).map reportPrasadam).sum
          events := (reports.filter fun r => reportTemple users r == t).length } := by
    intro t
    rw [chartFold_val]
    simp [RegionTotals.zero]
  refine ⟨?_, ?_, ?_, ?_, ?_⟩
  · simp [getChartData, chartFold_keys]
  · simp only [getChartData]
    exact List.length_take_le 5 _
  · simp only [getChartData, hval]
  · simp only [getChartData, hval]
  · simp only [getChartData, hval]

theorem pieInitFold_val (categories : CategoryDir) (m : CountMap) :
    (categories.foldl pieInitStep m).val = m.val := by
  induction categories generalizing m with
  | nil => rfl
  | cons e es ih =>
      simp only [List.foldl_cons]
      rw [ih]
      rfl

theorem pieInitFold_keys (categories : CategoryDir) (m : CountMap) :
    (categories.foldl pieInitStep m).keys =
      (categories.map fun entry => initCategoryName entry.2).foldl pushNew m.keys := by
  induction categories generalizing m with
  | nil => rfl
  | cons e es ih =>
      simp only [List.foldl_cons, List.map_cons]
      rw [ih]
      rfl

theorem pieCountFold_keys (categories : CategoryDir) (reports : List Report)
    (m : CountMap) :
    (reports.foldl (pieCountStep categories) m).keys =
      (reports.map (pieCategoryName categories)).foldl pushNew m.keys := by
  induction reports generalizing m with
  | nil => rfl
  | cons r rs ih =>
      simp only [List.foldl_cons, List.map_cons]
      rw [ih]
      rfl

theorem pieCountFold_val (categories : CategoryDir) (reports : List Report)
    (m : CountMap) (t : String) :
    (reports.foldl (pieCountStep categories) m).val t =
      m.val t + reports.countP (fun r => pieCategoryName categories r == t) := by
  induction reports generalizing m with
  | nil => simp
  | cons r rs ih =>
      simp only [List.foldl_cons]
      rw [ih]
      by_cases h : pieCategoryName categories r = t
      · subst h
        simp [pieCountStep, List.countP_cons]
        omega
      · simp [pieCountStep, List.countP_cons, h, Ne.symm h]

/-- The category distribution as the spec describes it: every known
category's resolved name starts at 0, each report increments its resolved
counting name (so a name's value is the number of reports resolving to it),
zero-value entries are removed, the rest is sorted descending by value, and
an empty filtered result is replaced by all known categories at value 0. -/
def specPieChart (reports : List Report) (categories : CategoryDir) :
    List PieSlice :=
  let keys :=
    ((categories.map fun entry => initCategoryName entry.2) ++
      reports.map (pieCategoryName categories)).foldl pushNew []
  let slices := keys.map fun name =>
    PieSlice.mk name (reports.countP fun r => pieCategoryName categories r == name)
  let sorted := sortByValueDesc (slices.filter fun slice => slice.value > 0)
  if sorted.length = 0 then
    categories.map fun entry => PieSlice.mk (initCategoryName entry.2) 0
  else sorted

theorem pie_eq_spec (reports : List Report) (categories : CategoryDir) :
    getPieChartData reports categories = specPieChart reports categories := by
  have hfun : (fun name => PieSlice.mk name
      ((reports.foldl (pieCountStep categories)
        (categories.foldl pieInitStep ⟨[], fun _ => 0⟩)).val name)) =
      fun name => PieSlice.mk name
        (reports.countP fun r => pieCategoryName categories r == name) := by
    funext name
    rw [pieCountFold_val, pieInitFold_val]
    simp
  simp only [getPieChartData, specPieChart]
  rw [pieCountFold_keys, pieInitFold_keys, ← List.foldl_append, hfun]

/-- C6: the category distribution starts every known category at 0, counts
each report once under its resolved name, drops zero counts, sorts descending
by value, and returns all known categories at 0 when the filtered result is
empty; with categories `{A, B}` and no reports it yields
`[{A,0},{B,0}]`, and with one report referencing A it yields `[{A,1}]`. -/
theorem C6_category_distribution :
    (∀ (reports : List Report) (categories : CategoryDir),
        getPieChartData reports categories = specPieChart reports categories) ∧
    getPieChartData []
      [("idA", { categoryName := some "A" }), ("idB", { categoryName := some "B" })] =
      [⟨"A", 0⟩, ⟨"B", 0⟩] ∧
    getPieChartData [{ categoryId := some "idA" }]
      [("idA", { categoryName := some "A" }), ("idB", { categoryName := some "B" })] =
      [⟨"A", 1⟩] :=
  ⟨pie_eq_spec, by decide, by decide⟩

/-- C7: the categories and users fetches store their data without touching
`lastFetch` — only the reports fetch stamps it — and `clearCache` resets all
three collections and the timestamp together, after which `isCacheValid` is
false and the next fetch of each collection queries the external store. -/
theorem C7_cache_frame :
    (∀ (c : Cache) (now : Nat) (store : Except String CategoryDir),
        (fetchPreachingCategories c now store).cache.lastFetch = c.lastFetch) ∧
    (∀ (c : Cache) (now : Nat) (store : Except String UserDir),
        (fetchUsers c now store).cache.lastFetch = c.lastFetch) ∧
    (∀ (c : Cache) (now : Nat) (categories : CategoryDir),
        (isCacheValid c now && c.preachingCategories.isSome) = false →
        (fetchPreachingCategories c now (Except.ok categories)).cache.preachingCategories =
          some categories) ∧
    (∀ (c : Cache) (now : Nat) (users : UserDir),
        (isCacheValid c now && c.users.isSome) = false →
        (fetchUsers c now (Except.ok users)).cache.users = some users) ∧
    (∀ (c : Cache) (now : Nat) (reports : List Report),
        (isCacheValid c now && c.activityReports.isSome) = false →
        (fetchActivityReports c now (Except.ok reports)).cache.lastFetch = some now) ∧
    (clearCache.activityReports = none ∧ clearCache.preachingCategories = none ∧
      clearCache.users = none ∧ clearCache.lastFetch = none) ∧
    (∀ now : Nat, isCacheValid clearCache now = false) ∧
    (∀ (now : Nat) (s1 : Except String (List Report))
        (s2 : Except String CategoryDir) (s3 : Except String UserDir),
        (fetchActivityReports clearCache now s1).queriedStore = true ∧
        (fetchPreachingCategories clearCache now s2).queriedStore = true ∧
        (fetchUsers clearCache now s3).queriedStore = true) := by
  refine ⟨?_, ?_, ?_, ?_, ?_, ⟨rfl, rfl, rfl, rfl⟩, fun _ => rfl, ?_⟩
  · intro c now store
    by_cases h : (isCacheValid c now && c.preachingCategories.isSome) = true
    · simp [fetchPreachingCategories, h]
    · cases store <;> simp [fetchPreachingCategories, h]
  · intro c now store
    by_cases h : (isCacheValid c now && c.users.isSome) = true
    · simp [fetchUsers, h]
    · cases store <;> simp [fetchUsers, h]
  · intro c now categories h
    simp [fetchPreachingCategories, h]
  · intro c now users h
    simp [fetchUsers, h]
  · intro c now reports h
    simp [fetchActivityReports, h]
  · intro now s1 s2 s3
    refine ⟨?_, ?_, ?_⟩
    · cases s1 <;> rfl
    · cases s2 <;> rfl
    · cases s3 <;> rfl

/-- Witness for C7 at concrete inputs: on an empty cache, the categories and
users fetches store their payloads, and a reports fetch at time 5 stamps
`lastFetch = 5`. -/
theorem C7_witness :
    (fetchPreachingCategories emptyCache 0
        (Except.ok [("idA", {})])).cache.preachingCategories =
      some [("idA", {})] ∧
    (fetchUsers emptyCache 0 (Except.ok [("u1", {})])).cache.users =
      some [("u1", {})] ∧
    (fetchActivityReports emptyCache 5 (Except.ok [])).cache.lastFetch = some 5 :=
  ⟨C7_cache_frame.2.2.1 emptyCache 0 [("idA", {})] (by decide),
   C7_cache_frame.2.2.2.1 emptyCache 0 [("u1", {})] (by decide),
   C7_cache_frame.2.2.2.2.1 emptyCache 5 [] (by decide)⟩

/-- C9: when the external store raises during a collection fetch that
actually consults it, the operation (a total function in this model — the
source wraps the whole body in `try/catch`) returns the empty sequence for
reports and the empty mapping for categories and users, leaving the cache
untouched, so no store exception reaches any caller. -/
theorem C9_fetch_error_fallback (c : Cache) (now : Nat) (e : String) :
    ((isCacheValid c now && c.activityReports.isSome) = false →
      (fetchActivityReports c now (Except.error e)).result = [] ∧
      (fetchActivityReports c now (Except.error e)).cache = c) ∧
    ((isCacheValid c now && c.preachingCategories.isSome) = false →
      (fetchPreachingCategories c now (Except.error e)).result = [] ∧
      (fetchPreachingCategories c now (Except.error e)).cache = c) ∧
    ((isCacheValid c now && c.users.isSome) = false →
      (fetchUsers c now (Except.error e)).result = [] ∧
      (fetchUsers c now (Except.error e)).cache = c) := by
  refine ⟨fun h => ?_, fun h => ?_, fun h => ?_⟩
  · simp [fetchActivityReports, h]
  · simp [fetchPreachingCategories, h]
  · simp [fetchUsers, h]

/-- Witness for C9 at concrete inputs: a store failure on an empty cache
yields the empty sequence/mapping from all three fetchers. -/
theorem C9_witness :
    (fetchActivityReports emptyCache 0 (Except.error "unavailable")).result = [] ∧
    (fetchPreachingCategories emptyCache 0 (Except.error "unavailable")).result = [] ∧
    (fetchUsers emptyCache 0 (Except.error "unavailable")).result = [] :=
  ⟨((C9_fetch_error_fallback emptyCache 0 "unavailable").1 (by decide)).1,
   ((C9_fetch_error_fallback emptyCache 0 "unavailable").2.1 (by decide)).1,
   ((C9_fetch_error_fallback emptyCache 0 "unavailable").2.2 (by decide)).1⟩

/-- C4 counterexample: the reports listener (`listenToActivityReports`)
registers no error observer with `onSnapshot`, so a subscription-level error
triggers ZERO fallback fetches — not the exactly-one the claim asserts for
both listeners. -/
theorem C4_counterexample :
    countFetches
      (deliverError reportsListenerErrObserver (Except.error "store unavailable")) ≠ 1 := by
  decide

/-- C4 amended: only the resources listener has the fallback: on a
subscription-level error it performs exactly one manual fetch and invokes the
callback exactly once, with the fetched list or with `[]` when the fallback
itself fails (both branches are caught, so nothing escapes — the model is a
total function).  The reports listener registers no error observer, so a
subscription error produces no fallback fetch and no callback invocation. -/
theorem C4_amended :
    (∀ fetched : Except String (List Resource),
        countFetches (deliverError resourcesListenerErrObserver fetched) = 1 ∧
        callbackPayloads (deliverError resourcesListenerErrObserver fetched) =
          [match fetched with
           | Except.ok resources => resources
           | Except.error _ => []]) ∧
    (∀ fetched : Except String (List Report),
        deliverError reportsListenerErrObserver fetched = []) := by
  constructor
  · intro fetched
    cases fetched <;>
      simp [deliverError, resourcesListenerErrObserver, resourcesOnError,
        countFetches, callbackPayloads]
  · intro fetched
    rfl

theorem pushNew_mem (l : List String) (x a : String) :
    a ∈ pushNew l x ↔ a ∈ l ∨ a = x := by
  unfold pushNew
  by_cases h : x ∈ l
  · simp only [h, if_pos]
    constructor
    · exact Or.inl
    · rintro (ha | rfl)
      · exact ha
      · exact h
  · simp [h]

theorem pushNewFold_mem (l : List String) (acc : List String) (a : String) :
    a ∈ l.foldl pushNew acc ↔ a ∈ acc ∨ a ∈ l := by
  induction l generalizing acc with
  | nil => simp
  | cons x xs ih =>
      simp only [List.foldl_cons, ih, pushNew_mem, List.mem_cons]
      tauto

theorem pushNew_nodup (l : List String) (x : String) (h : l.Nodup) :
    (pushNew l x).Nodup := by
  unfold pushNew
  by_cases hx : x ∈ l
  · simp [hx, h]
  · simp [hx, List.nodup_append, h]

theorem pushNewFold_nodup (l : List String) (acc : List String)
    (h : acc.Nodup) : (l.foldl pushNew acc).Nodup := by
  induction l generalizing acc with
  | nil => exact h
  | cons x xs ih =>
      simp only [List.foldl_cons]
      exact ih _ (pushNew_nodup _ _ h)

theorem templesFold_eq (users : UserDir) (reports : List Report)
    (acc : List String) :
    reports.foldl (templesStep users) acc =
      (reports.filterMap (reportAuthorTemple users)).foldl pushNew acc := by
  induction reports generalizing acc with
  | nil => rfl
  | cons r rs ih =>
      simp only [List.foldl_cons, List.filterMap_cons]
      cases h : reportAuthorTemple users r <;>
        simp [templesStep, h, ih]

theorem citiesCovered_eq (reports : List Report) (users : UserDir) :
    (calculatePreachingImpact reports users).citiesCovered =
      ((reports.filterMap (reportAuthorTemple users)).toFinset).card := by
  have h1 : (calculatePreachingImpact reports users).citiesCovered =
      ((reports.filterMap (reportAuthorTemple users)).foldl pushNew []).length := by
    simp only [calculatePreachingImpact, templesFold_eq]
  have hnd : ((reports.filterMap (reportAuthorTemple users)).foldl pushNew []).Nodup :=
    pushNewFold_nodup _ _ List.nodup_nil
  have hset : ((reports.filterMap (reportAuthorTemple users)).foldl pushNew []).toFinset =
      (reports.filterMap (reportAuthorTemple users)).toFinset := by
    apply Finset.ext
    intro a
    simp [List.mem_toFinset, pushNewFold_mem]
  rw [h1, ← List.toFinset_card_of_nodup hnd, hset]

/-- C8: `activePreachers` is the size of the user directory (not the number
of distinct reporters), and `citiesCovered` is the number of distinct temple
values reachable through reports whose author is in the directory and has a
temple; a report whose `createdBy` is missing from the directory still counts
toward the other totals but never toward `citiesCovered`. -/
theorem C8_preachers_cities (reports : List Report) (users : UserDir) :
    (calculatePreachingImpact reports users).activePreachers = users.length ∧
    (calculatePreachingImpact reports users).citiesCovered =
      ((reports.filterMap (reportAuthorTemple users)).toFinset).card ∧
    (∀ (r : Report) (k : String), r.createdBy = some k → users.lookup k = none →
        (calculatePreachingImpact (r :: reports) users).citiesCovered =
          (calculatePreachingImpact reports users).citiesCovered ∧
        (calculatePreachingImpact (r :: reports) users).totalReports =
          (calculatePreachingImpact reports users).totalReports + 1 ∧
        (calculatePreachingImpact (r :: reports) users).totalBooksDistributed =
          reportBooks r + (calculatePreachingImpact reports users).totalBooksDistributed ∧
        (calculatePreachingImpact (r :: reports) users).livesTouched =
          reportNewContacts r + (calculatePreachingImpact reports users).livesTouched) := by
  refine ⟨rfl, citiesCovered_eq reports users, ?_⟩
  intro r k hk hlook
  have hat : reportAuthorTemple users r = none := by
    simp [reportAuthorTemple, hk, hlook]
  refine ⟨?_, ?_, ?_, ?_⟩
  · rw [citiesCovered_eq, citiesCovered_eq, List.filterMap_cons_none hat]
  · simp [calculatePreachingImpact]
  · simp [calculatePreachingImpact, Nat.add_comm]
  · simp [calculatePreachingImpact, Nat.add_comm]

/-- Witness for C8 at a concrete input: a single report whose author id is
absent from an empty user directory leaves `citiesCovered` at 0 while
`totalReports` becomes 1. -/
theorem C8_witness :
    (calculatePreachingImpact [{ createdBy := some "ghost" }] []).citiesCovered =
      (calculatePreachingImpact [] []).citiesCovered ∧
    (calculatePreachingImpact [{ createdBy := some "ghost" }] []).totalReports =
      (calculatePreachingImpact [] []).totalReports + 1 :=
  have h := (C8_preachers_cities [] []).2.2 { createdBy := some "ghost" } "ghost" rfl rfl
  ⟨h.1, h.2.1⟩

theorem fetchActivityReports_hit (c : Cache) (now : Nat)
    (store : Except String (List Report))
    (h : (isCacheValid c now && c.activityReports.isSome) = true) :
    fetchActivityReports c now store = ⟨c.activityReports.getD [], c, false⟩ := by
  simp [fetchActivityReports, h]

/-- C10: the live reports listener subscribes with `limit(50)`, so each push
replaces the cached reports with the store's 50 newest documents and stamps
`lastFetch`; while that cache entry is valid, `fetchActivityReports` serves
exactly that truncated snapshot without querying the store, so every derived
view — all of which consume `fetchActivityReports`'s result — is computed
over at most 50 reports; the one-shot fetch path, by contrast, retrieves the
store's full report list. -/
theorem C10_live_feed_truncation (storeReports : List Report) (c : Cache)
    (now : Nat) :
    (listenPush storeReports now c).1 = storeReports.take 50 ∧
    (listenPush storeReports now c).1.length ≤ 50 ∧
    (listenPush storeReports now c).2.activityReports = some (storeReports.take 50) ∧
    (listenPush storeReports now c).2.lastFetch = some now ∧
    (∀ (later : Nat) (store2 : Except String (List Report)),
        isCacheValid (listenPush storeReports now c).2 later = true →
        (fetchActivityReports (listenPush storeReports now c).2 later store2).result =
          storeReports.take 50 ∧
        (fetchActivityReports (listenPush storeReports now c).2 later
            store2).queriedStore = false ∧
        (∀ users : UserDir,
            (calculatePreachingImpact
              (fetchActivityReports (listenPush storeReports now c).2 later
                store2).result users).totalReports ≤ 50)) ∧
    (∀ reports : List Report,
        (fetchActivityReports clearCache now (Except.ok reports)).result = reports) := by
  refine ⟨rfl, List.length_take_le _ _, rfl, rfl, ?_, fun reports => rfl⟩
  intro later store2 hvalid
  have hcond : (isCacheValid (listenPush storeReports now c).2 later &&
      ((listenPush storeReports now c).2.activityReports).isSome) = true := by
    rw [hvalid]
    rfl
  have hres : (fetchActivityReports (listenPush storeReports now c).2 later
      store2).result = storeReports.take 50 := by
    rw [fetchActivityReports_hit _ _ _ hcond]
    rfl
  refine ⟨hres, ?_, ?_⟩
  · rw [fetchActivityReports_hit _ _ _ hcond]
  · intro users
    rw [hres]
    simp [calculatePreachingImpact]

/-- Witness for C10 at a concrete input: after a push of a one-report store
snapshot at time 1000, a fetch at time 1000 serves that snapshot from cache
even though the store is down. -/
theorem C10_witness :
    (fetchActivityReports (listenPush [{ id := "r1" }] 1000 emptyCache).2 1000
        (Except.error "down")).result = [{ id := "r1" }] :=
  (((C10_live_feed_truncation [{ id := "r1" }] emptyCache 1000).2.2.2.2.1 1000
      (Except.error "down") (by decide)).1).trans (by decide)

end PreacherPortal
